import Mathlib

/-!
Formal model of the filtering and text-classification core of the
Estudo-de-Infodemiologia pipeline (Python sources `src/limpeza.py`,
`src/qualitativa.py`, `src/selecao.py`, configuration `src/config.py`).

Conventions of the shallow embedding:
* pandas DataFrames become Lean lists of records; a missing value (NaN)
  or an unparsable field becomes `Option.none`;
* whether a DataFrame has a given column is modelled by explicit Boolean
  flags, since `df.get(col, default)` and `"col" in df.columns` branch on
  column presence, not on per-row values;
* floats become rationals (`ℚ`), epoch timestamps become integers (`ℤ`);
* the TextBlob polarity estimator is a black box and enters the model as
  an explicit parameter (a function or a rational argument);
* Python string helpers are re-implemented structurally over `List Char`
  so that every definition evaluates inside the kernel.
-/

set_option autoImplicit false

namespace Infodemiologia

/-! Section: string utilities shared by the Python modules -/

/-- Python `str.lower` on a single character, covering ASCII letters plus the
uppercase accented letters of Portuguese that occur in this repository's data
and keyword lists. -/
def pyCharLower (c : Char) : Char :=
  match c with
  | 'Á' => 'á' | 'À' => 'à' | 'Â' => 'â' | 'Ã' => 'ã'
  | 'É' => 'é' | 'Ê' => 'ê'
  | 'Í' => 'í'
  | 'Ó' => 'ó' | 'Ô' => 'ô' | 'Õ' => 'õ'
  | 'Ú' => 'ú' | 'Ü' => 'ü'
  | 'Ç' => 'ç'
  | _ => c.toLower

/-- Python `str.lower` (restricted as in `pyCharLower`). -/
def pyLower (s : String) : String :=
  String.mk (s.data.map pyCharLower)

/-- Auxiliary check on character lists: the first list starts the second. -/
def prefixoDe : List Char → List Char → Bool
  | [], _ => true
  | _ :: _, [] => false
  | a :: as, b :: bs => a == b && prefixoDe as bs

/-- Auxiliary check on character lists: the first list occurs contiguously
inside the second. -/
def temSubL (p : List Char) : List Char → Bool
  | [] => p.isEmpty
  | c :: t => prefixoDe p (c :: t) || temSubL p t

/-- Python substring containment `kw in txt`. -/
def temSub (kw txt : String) : Bool :=
  temSubL kw.data txt.data

/-- Worker for `pySplit`: `cur` accumulates the current word reversed. -/
def pySplitL : List Char → List Char → List String
  | [], cur => if cur.isEmpty then [] else [String.mk cur.reverse]
  | c :: t, cur =>
    if c.isWhitespace then
      if cur.isEmpty then pySplitL t [] else String.mk cur.reverse :: pySplitL t []
    else pySplitL t (c :: cur)

/-- Python `str.split()` with no argument: split on whitespace runs and drop
empty pieces. -/
def pySplit (s : String) : List String :=
  pySplitL s.data []

/-! Section: sentiment scorer (`qualitativa.py`, `_sentimento`, lines 63-74)

The adjustment lexicons `_POSITIVAS` / `_NEGATIVAS` are transcribed from
`qualitativa.py` lines 41-53.  Python set literals are modelled as lists; only
membership is ever used. -/

/-- Positive adjustment lexicon (`_POSITIVAS` in `qualitativa.py`). -/
def POSITIVAS : List String :=
  ["bom","boa","ótimo","ótima","excelente","maravilhoso","maravilhosa",
   "perfeito","perfeita","funciona","útil","prático","prática","rápido",
   "rápida","fácil","recomendo","adorei","amei","parabéns","legal",
   "ajuda","gostei","top","melhor","incrível","eficiente","satisfeito"]

/-- Negative adjustment lexicon (`_NEGATIVAS` in `qualitativa.py`). -/
def NEGATIVAS : List String :=
  ["ruim","péssimo","péssima","horrível","terrível","lixo","travando",
   "trava","lento","lenta","bug","erro","falha","demora","horrendo",
   "pior","inútil","decepcion","decepcionou","decepcionante","merda",
   "nojo","funcionou","parou","desinstalei","desinstalar","porcaria",
   "propaganda","anúncio","anúncios","pessimo","pessima","odiei"]

/-- The hybrid sentiment scorer `_sentimento` of `qualitativa.py`.  The
TextBlob base polarity is the black-box parameter `basePol`; the rest mirrors
the Python body: unique whitespace tokens, intersection counts with the two
lexicons, adjustment `(p - n) * 0.15`, clamping into `[-1, 1]`, and the
three-way labelling with strict `0.05` thresholds. -/
def sentimento (basePol : ℚ) (txt : String) : String × ℚ :=
  let words := (pySplit txt).dedup
  let p := (words.filter (fun w => POSITIVAS.contains w)).length
  let n := (words.filter (fun w => NEGATIVAS.contains w)).length
  let ajuste := ((p : ℚ) - (n : ℚ)) * (15 / 100)
  let pol := max (-1) (min 1 (basePol + ajuste))
  if pol > 5 / 100 then ("Positivo", pol)
  else if pol < -(5 / 100) then ("Negativo", pol)
  else ("Neutro", pol)

/-- Spec-side description of the adjusted polarity: the size of the
intersection of the set of unique whitespace tokens with each lexicon,
adjustment weight `0.15`, clamped into `[-1, 1]`.  Declared separately from
`sentimento` so the scorer can be compared against the specification text. -/
def ajusteSpec (basePol : ℚ) (txt : String) : ℚ :=
  let words := (pySplit txt).dedup
  let p := (words.filter (fun w => POSITIVAS.contains w)).length
  let n := (words.filter (fun w => NEGATIVAS.contains w)).length
  max (-1) (min 1 (basePol + ((p : ℚ) - (n : ℚ)) * (15 / 100)))

/-! Section: thematic classifier (`qualitativa.py`, `_classificar_eixo`,
lines 77-82) and its configuration (`config.py`, `EIXOS_TEMATICOS`, lines
171-245) -/

/-- One thematic axis of `EIXOS_TEMATICOS`: name, keyword substrings, display
color. -/
structure Eixo where
  nome : String
  keywords : List String
  cor : String
deriving DecidableEq, Repr

/-- The `EIXOS_TEMATICOS` configuration dictionary of `config.py`, in its
declared insertion order (Python dicts preserve insertion order). -/
def EIXOS_TEMATICOS : List Eixo :=
  [{ nome := "Interoperabilidade e Integração de Dados",
     keywords :=
       ["sincroniz", "sincronia", "integra", "dados não",
        "dados nao", "conectar", "conexão", "conexao",
        "importar", "exportar", "transferir", "transferência",
        "api", "servidor", "offline", "online",
        "não carrega", "nao carrega", "não sincroniz",
        "nao sincroniz", "perdi dados", "perdi os dados",
        "não atualiza", "nao atualiza", "desconect",
        "compatível", "compativel", "incompatível", "incompativel",
        "vincular", "cadastro", "login", "autenticação",
        "interoperab", "fhir", "hl7", "banco de dados",
        "prontuário", "prontuario", "registro",
        "migrar", "migração", "backup"],
     cor := "#1565C0" },
   { nome := "Segurança da Informação e Privacidade",
     keywords :=
       ["segurança", "seguranca", "privacidade", "dados pessoais",
        "lgpd", "proteção", "protecao", "vazamento", "vazar",
        "senha", "criptograf", "hack", "roubar", "roubaram",
        "permissão", "permissao", "acesso indevido",
        "informação pessoal", "informacao pessoal",
        "confiável", "confiavel", "desconfi",
        "expor", "exposição", "dados sensíveis", "dados sensiveis",
        "autenticação", "autenticacao", "token", "biometria",
        "certificado digital", "assinatura digital"],
     cor := "#C62828" },
   { nome := "Usabilidade e Experiência do Usuário (UX)",
     keywords :=
       ["difícil", "dificil", "complicad", "confus",
        "interface", "tela", "botão", "botao", "menu",
        "intuitiv", "layout", "design", "visual",
        "não encontr", "nao encontr", "cadê", "cade",
        "onde fica", "como faz", "como faço",
        "navegação", "navegacao", "acessibilidad",
        "letra pequena", "não consigo", "nao consigo",
        "complicado de usar", "difícil de usar",
        "ux", "experiência", "experiencia", "usabilidad",
        "tutorial", "ajuda", "manual"],
     cor := "#F57F17" },
   { nome := "Funcionalidade e Estabilidade Técnica",
     keywords :=
       ["bug", "erro", "crash", "trava", "travando",
        "fecha sozinho", "fechou", "parou", "parar de funcionar",
        "não funciona", "nao funciona", "não abre", "nao abre",
        "problema", "falha", "defeito", "quebr",
        "atualização quebrou", "atualizacao quebrou",
        "não responde", "nao responde", "congelou", "congela",
        "lixo", "péssimo", "pessimo", "horrível", "horrivel",
        "inútil", "inutil", "porcaria",
        "instável", "instavel", "versão", "versao"],
     cor := "#6A1B9A" },
   { nome := "Desempenho e Infraestrutura",
     keywords :=
       ["lento", "lentidão", "lentidao", "demora",
        "pesado", "memória", "memoria", "bateria",
        "consumo", "espaço", "espaco", "armazenamento",
        "carregando", "loading", "travando", "lag",
        "otimiz", "rápido", "rapido", "veloz",
        "internet", "banda", "wifi", "3g", "4g", "5g",
        "servidor fora", "indisponível", "indisponivel",
        "tempo de resposta", "timeout"],
     cor := "#2E7D32" }]

/-- Whether an axis matches a text: some keyword of the axis is a substring
of the text (the `any(kw in txt ...)` test of `_classificar_eixo`). -/
def eixoCombina (e : Eixo) (txt : String) : Bool :=
  e.keywords.any (fun kw => temSub kw txt)

/-- The accumulation loop of `_classificar_eixo`: walk the configured axes in
order, appending the name of each axis that matches. -/
def classificarEixoLoop : List Eixo → String → List String
  | [], _ => []
  | e :: resto, txt =>
    if eixoCombina e txt then e.nome :: classificarEixoLoop resto txt
    else classificarEixoLoop resto txt

/-- The thematic classifier `_classificar_eixo` of `qualitativa.py`: matched
axis names in configuration order, or the fallback `["Outros"]`. -/
def classificarEixo (txt : String) : List String :=
  let eixos := classificarEixoLoop EIXOS_TEMATICOS txt
  if eixos.isEmpty then ["Outros"] else eixos

/-! Section: developer classifier (`limpeza.py`, `_classificar_dev`, lines
92-113)

A pandas cell that is absent (NaN) or not a string fails the
`isinstance(dev, str)` guard; both are modelled by `Option.none`. -/

/-- The governmental keyword list local to `executar_limpeza`
(`_KEYWORDS_GOVERNO`). -/
def KEYWORDS_GOVERNO : List String :=
  ["ministério", "ministerio", "secretaria", "governo",
   "prefeitura", "municipal", "estadual", "federal",
   "datasus", "sus", "fiocruz", "anvisa", "ans"]

/-- The institutional keyword list local to `executar_limpeza`
(`_KEYWORDS_INST`). -/
def KEYWORDS_INST : List String :=
  ["universidade", "university", "usp", "unicamp", "ufmg",
   "instituto", "fundação", "fundacao", "hospital", "associação",
   "crm", "cfm", "cfn", "coren", "cfp", "unimed", "einstein"]

/-- The developer classifier `_classificar_dev` of `limpeza.py`. -/
def classificarDev (dev : Option String) : String :=
  match dev with
  | none => "Comercial"
  | some s =>
    let d := pyLower s
    if KEYWORDS_GOVERNO.any (fun k => temSub k d) then "Governamental"
    else if KEYWORDS_INST.any (fun k => temSub k d) then "Institucional"
    else "Comercial"

/-! Section: cleaning pipeline (`limpeza.py`, `executar_limpeza`, lines
41-144) -/

/-- An app row of the raw CSV.  Numeric cells that are missing or unparsable
(pandas `NaN`, coerced by `pd.to_numeric(..., errors="coerce")` or
`pd.to_datetime(..., errors="coerce")`) are `none`; text cells that are
missing are `none`. -/
structure App where
  appId : String
  genreId : Option String
  realInstalls : Option ℚ
  minInstalls : Option ℚ
  updated : Option ℤ
  lastUpdatedOn : Option ℤ
  title : Option String
  summary : Option String
  description : Option String
  developer : Option String
deriving DecidableEq, Repr

/-- A review row: only the key and the free text matter to the model. -/
structure Review where
  appId : String
  content : Option String
deriving DecidableEq, Repr

/-- Which optional columns exist in the loaded apps DataFrame.  `df.get(col,
default)` and `"col" in df.columns` in `executar_limpeza` branch on column
presence, not on individual cells. -/
structure Colunas where
  colRealInstalls : Bool
  colMinInstalls : Bool
  colLastUpdatedOn : Bool
deriving DecidableEq, Repr

/-- The target categories `CATEGORIAS_ALVO` of `config.py`. -/
def CATEGORIAS_ALVO : List String := ["MEDICAL", "HEALTH_AND_FITNESS"]

/-- The install threshold `MIN_INSTALACOES` of `config.py`. -/
def MIN_INSTALACOES : ℚ := 1000

/-- The helper `_contem` of `limpeza.py`: `False` on non-strings, otherwise a
case-insensitive substring test against any of the keywords. -/
def contem (texto : Option String) (keywords : List String) : Bool :=
  match texto with
  | none => false
  | some t => keywords.any (fun k => temSub (pyLower k) (pyLower t))

/-- The thematic inclusion keywords `KEYWORDS_INCLUSAO` of `config.py`. -/
def KEYWORDS_INCLUSAO : List String :=
  ["prontuário", "prontuario", "ehr", "electronic health",
   "medical record", "registro eletrônico", "registro eletronico",
   "sus", "datasus", "e-sus", "esus", "conecte sus", "conect sus",
   "meu sus digital", "sisab", "sigtap",
   "ministério da saúde", "ministerio da saude",
   "secretaria de saúde", "secretaria de saude",
   "interoperab", "hl7", "fhir", "api saúde", "api saude",
   "integração", "integracao", "sincroniz", "sincroniza",
   "conectividade", "padrão aberto", "padrao aberto",
   "openehr", "dicom",
   "sistema de informação", "sistema de informacao",
   "information system", "cnes", "sinan", "sinasc",
   "sim ", "sivep", "sipni", "sisvan", "siab",
   "gestão hospitalar", "gestao hospitalar",
   "gestão clínica", "gestao clinica",
   "mhealth", "m-health", "saúde digital", "saude digital",
   "telemedicina", "teleconsulta", "telessaúde", "telessaude",
   "ubs", "atenção básica", "atencao basica",
   "vigilância", "vigilancia", "epidemiológ",
   "vacinação", "vacinacao", "imunização", "imunizacao",
   "samu", "caps",
   "farmácia popular", "farmacia popular",
   "agente comunitário", "agente comunitario",
   "estratégia saúde família",
   "saúde pública", "saude publica", "public health",
   "hospital", "clínic", "clinic", "laborat",
   "diagnóstico", "diagnostico",
   "prescrição", "prescricao", "receita médica",
   "hemograma", "exame", "laudo",
   "enfermagem"]

/-- The title exclusion keywords `KEYWORDS_EXCLUSAO_TITULO` of `config.py`. -/
def KEYWORDS_EXCLUSAO_TITULO : List String :=
  ["academia", "gym", "workout", "fitness tracker",
   "dieta", "emagrecer", "perder peso", "caloria",
   "yoga", "meditação", "meditacao", "mindfulness",
   "corrida", "running", "step counter", "pedômetro",
   "musculação", "musculacao", "treino",
   "receita culinária", "receita culinaria",
   "personal trainer", "bodybuilding",
   "sleep tracker", "ciclo menstrual"]

/-- Stage 1 worker: `df.drop_duplicates(subset=["appId"], keep="first")`,
keeping the first row seen for each identifier; `vistos` holds the
identifiers already kept. -/
def dropDuplicatas : List App → List String → List App
  | [], _ => []
  | r :: t, vistos =>
    if r.appId ∈ vistos then dropDuplicatas t vistos
    else r :: dropDuplicatas t (r.appId :: vistos)

/-- Stage 1 of `executar_limpeza`: deduplication by `appId`. -/
def etapa1 (l : List App) : List App :=
  dropDuplicatas l []

/-- Stage 2 of `executar_limpeza`: `df[df["genreId"].isin(CATEGORIAS_ALVO)]`
(a missing category is not in the allow-list). -/
def etapa2 (l : List App) : List App :=
  l.filter (fun r =>
    match r.genreId with
    | some g => CATEGORIAS_ALVO.contains g
    | none => false)

/-- The `instalacoes_num` column of stage 3:
`pd.to_numeric(df.get("realInstalls", df.get("minInstalls", 0)),
errors="coerce").fillna(0)`.  `df.get` selects a whole column when it exists,
so the fallback happens per column, and coercion failures become `0`.  When
neither column exists this pandas expression never yields per-row values at
all — `df.get` returns the scalar `0`, and the chained `.fillna(0)` on the
scalar result of `pd.to_numeric` raises `AttributeError` while the column is
being built; that stage-level failure is modelled by `etapa3Completa`, and the
final `0` arm here is only the placeholder a total function needs for that
configuration. -/
def instalacoesNum (cols : Colunas) (r : App) : ℚ :=
  if cols.colRealInstalls then (r.realInstalls.getD 0)
  else if cols.colMinInstalls then (r.minInstalls.getD 0)
  else 0

/-- Stage 3 of `executar_limpeza`: attach `instalacoes_num` and keep rows with
`instalacoes_num >= MIN_INSTALACOES`. -/
def etapa3 (cols : Colunas) (l : List App) : List App :=
  ((l.map (fun r => (r, instalacoesNum cols r))).filter
    (fun rc => MIN_INSTALACOES ≤ rc.2)).map Prod.fst

/-- Stage 3 of `executar_limpeza` with its failure mode made explicit: with
at least one install column the stage filters the rows, but with neither
column present `df.get("realInstalls", df.get("minInstalls", 0))` is the
scalar `0`, `pd.to_numeric` returns a scalar, and the chained `.fillna(0)` at
`limpeza.py` lines 64-66 raises `AttributeError` before any row is tested. -/
def etapa3Completa (cols : Colunas) (l : List App) : Except String (List App) :=
  if cols.colRealInstalls || cols.colMinInstalls then Except.ok (etapa3 cols l)
  else Except.error "AttributeError"

/-- The `updated_dt` column of stage 4: `pd.to_datetime(df["updated"],
unit="s", errors="coerce")`, then, when a `lastUpdatedOn` column exists, the
rows whose primary value is `NaT` are filled from
`pd.to_datetime(df["lastUpdatedOn"], errors="coerce")`. -/
def updatedDt (cols : Colunas) (r : App) : Option ℤ :=
  match r.updated with
  | some t => some t
  | none => if cols.colLastUpdatedOn then r.lastUpdatedOn else none

/-- Stage 4 of `executar_limpeza`: keep rows with
`updated_dt >= DATA_CORTE_ATUALIZACAO`; a `NaT` timestamp compares false in
pandas, so a row with no resolvable timestamp is dropped.  `corte` is the
configured cutoff `DATA_CORTE_ATUALIZACAO`. -/
def etapa4 (cols : Colunas) (corte : ℤ) (l : List App) : List App :=
  ((l.map (fun r => (r, updatedDt cols r))).filter
    (fun rt =>
      match rt.2 with
      | some t => decide (corte ≤ t)
      | none => false)).map Prod.fst

/-- The combined `_texto` column of stage 5:
`title.fillna("") + " " + summary.fillna("") + " " + description.fillna("")`. -/
def textoCombinado (r : App) : String :=
  (r.title.getD "") ++ " " ++ (r.summary.getD "") ++ " " ++ (r.description.getD "")

/-- Stage 5 of `executar_limpeza`: relevance — the combined text contains an
inclusion keyword and the title contains no exclusion keyword. -/
def etapa5 (l : List App) : List App :=
  l.filter (fun r =>
    contem (some (textoCombinado r)) KEYWORDS_INCLUSAO &&
    !(contem r.title KEYWORDS_EXCLUSAO_TITULO))

/-- Stages 1-5 of `executar_limpeza` with the audit trail `etapas` of
(stage name, count before, count after) tuples, as built by the Python code. -/
def pipelineFiltros (cols : Colunas) (corte : ℤ) (l : List App) :
    List App × List (String × Nat × Nat) :=
  let d1 := etapa1 l
  let d2 := etapa2 d1
  let d3 := etapa3 cols d2
  let d4 := etapa4 cols corte d3
  let d5 := etapa5 d4
  (d5,
   [("Remoção de duplicatas", l.length, d1.length),
    ("Filtro por categoria", d1.length, d2.length),
    ("Instalações >= 1,000", d2.length, d3.length),
    ("Atualização < 24 meses", d3.length, d4.length),
    ("Relevância temática", d4.length, d5.length)])

/-- Model of `_carregar_brutos` of `limpeza.py`: each element of `csvsApps` /
`csvsReviews` is the parsed content of one `apps_brutos_*.csv` /
`reviews_brutos_*.csv` file, already sorted newest first; with no apps file
the function raises `FileNotFoundError`, and with no reviews file the reviews
DataFrame is empty. -/
def carregarBrutos (csvsApps : List (List App)) (csvsReviews : List (List Review)) :
    Except String (List App × List Review) :=
  match csvsApps with
  | [] => Except.error "Nenhum arquivo de apps"
  | dfA :: _ =>
    Except.ok (dfA, match csvsReviews with | [] => [] | dfR :: _ => dfR)

/-- Model of `executar_limpeza` of `limpeza.py`, from loading through stage 8:
returns the cleaned apps, the reviews restricted to surviving identifiers,
and the audit trail.  Stages 6 (developer classification) and 7 (sorting) do
not change which rows survive, and the saved CSV outputs are the returned
values, so they are not re-modelled here. -/
def executarLimpeza (cols : Colunas) (corte : ℤ)
    (csvsApps : List (List App)) (csvsReviews : List (List Review)) :
    Except String (List App × List Review × List (String × Nat × Nat)) :=
  match carregarBrutos csvsApps csvsReviews with
  | Except.error e => Except.error e
  | Except.ok (dfA, dfR) =>
    let resultado := pipelineFiltros cols corte dfA
    let idsValidos := resultado.1.map App.appId
    let dfRf := if dfR.length ≠ 0
                then dfR.filter (fun r => idsValidos.contains r.appId)
                else dfR
    Except.ok (resultado.1, dfRf, resultado.2)

/-- Spec-side effective install count, following the specification text:
the real-installs value when present and positive, else the declared
minimum-installs value, else 0.  Declared separately from `instalacoesNum`
so the code can be compared against the specification. -/
def instalacoesEfetivasSpec (r : App) : ℚ :=
  match r.realInstalls with
  | some v => if 0 < v then v else r.minInstalls.getD 0
  | none => r.minInstalls.getD 0

/-- A row with a zero real-installs value and a large declared minimum. -/
def appExemploC4 : App :=
  { appId := "app.exemplo", genreId := some "MEDICAL",
    realInstalls := some 0, minInstalls := some 5000,
    updated := none, lastUpdatedOn := none,
    title := none, summary := none, description := none, developer := none }

/-- A row whose primary update timestamp parses. -/
def appExemploC7 : App :=
  { appId := "app.atual", genreId := some "MEDICAL",
    realInstalls := none, minInstalls := none,
    updated := some 100, lastUpdatedOn := none,
    title := none, summary := none, description := none, developer := none }

/-! Section: qualitative-analysis stage (`qualitativa.py`,
`executar_analise_qualitativa`, lines 105-113, 144 and 246-247)

The stage receives reviews that already passed `dropna(subset=["content"])`
and whose `texto_limpo` column was computed by `_limpar`; the model therefore
takes the normalized text as a field.  The TextBlob polarity estimator is the
black-box parameter `basePol`. -/

/-- A review entering the qualitative stage: identifier and normalized text
(the `texto_limpo` column). -/
structure ReviewNorm where
  reviewId : String
  texto : String
deriving DecidableEq, Repr

/-- A row of the annotated output `reviews_anotados.csv`: the review plus the
columns `sentimento`, `polaridade` and `eixos` added by the stage. -/
structure ReviewAnotado where
  review : ReviewNorm
  rotulo : String
  polaridade : ℚ
  eixos : List String
deriving DecidableEq, Repr

/-- The length filter of line 107:
`df = df[df["texto_limpo"].str.len() > 10]`. -/
def filtroComprimentoMinimo (l : List ReviewNorm) : List ReviewNorm :=
  l.filter (fun r => 10 < r.texto.length)

/-- The classification core of `executar_analise_qualitativa`: length filter,
then sentiment and thematic annotation of every surviving row. -/
def analiseQualitativa (basePol : String → ℚ) (l : List ReviewNorm) :
    List ReviewAnotado :=
  (filtroComprimentoMinimo l).map (fun r =>
    { review := r,
      rotulo := (sentimento (basePol r.texto) r.texto).1,
      polaridade := (sentimento (basePol r.texto) r.texto).2,
      eixos := classificarEixo r.texto })

/-- A normalized review text of 5 characters. -/
def reviewCurto : ReviewNorm := { reviewId := "rev1", texto := "curto" }

/-- A normalized review text of exactly 10 characters. -/
def reviewLimite : ReviewNorm := { reviewId := "rev2", texto := "abcdefghij" }

/-- A normalized review text of 11 characters. -/
def reviewLongo : ReviewNorm := { reviewId := "rev3", texto := "abcdefghijk" }

/-! Section: interactive selection parser (`selecao.py`, `_parse_entrada`,
lines 106-130) -/

/-- Python `str.replace(a, b)` for single characters. -/
def pyReplaceChar (a b : Char) (s : String) : String :=
  String.mk (s.data.map (fun c => if c = a then b else c))

/-- The token list of `_parse_entrada`:
`entrada.replace(",", " ").split()`. -/
def tokensEntrada (entrada : String) : List String :=
  pySplit (pyReplaceChar ',' ' ' entrada)

/-- Worker for `pySplitSep`: split on every separator, keeping empty pieces
(Python `str.split(sep)`). -/
def splitSepL (sep : Char) : List Char → List Char → List String
  | [], cur => [String.mk cur.reverse]
  | c :: t, cur =>
    if c = sep then String.mk cur.reverse :: splitSepL sep t []
    else splitSepL sep t (c :: cur)

/-- Python `str.split(sep)` for a single-character separator. -/
def pySplitSep (sep : Char) (s : String) : List String :=
  splitSepL sep s.data []

/-- Decimal value of a digit list. -/
def valorDigitos (l : List Char) : ℕ :=
  l.foldl (fun acc c => 10 * acc + (c.toNat - '0'.toNat)) 0

/-- Parse of a non-empty all-digit character list. -/
def pyIntNat? (l : List Char) : Option ℕ :=
  if !l.isEmpty && l.all Char.isDigit then some (valorDigitos l) else none

/-- Python `int(tok)` on an optionally signed decimal digit string; any other
string raises `ValueError`, modelled as `none`. -/
def pyInt? (s : String) : Option ℤ :=
  match s.data with
  | '+' :: resto => (pyIntNat? resto).map (fun n => (n : ℤ))
  | '-' :: resto => (pyIntNat? resto).map (fun n => -(n : ℤ))
  | resto => (pyIntNat? resto).map (fun n => (n : ℤ))

/-- One loop iteration of `_parse_entrada`: a token with a hyphen is treated
as a range `a-b` when it splits into exactly two parseable parts (adding
`range(a, b + 1)`), a plain token is parsed as a single index, and parse
failures leave the accumulator unchanged. -/
def passoToken (acc : Finset ℤ) (tok : String) : Finset ℤ :=
  if tok.data.contains '-' then
    match pySplitSep '-' tok with
    | [p1, p2] =>
      match pyInt? p1, pyInt? p2 with
      | some a, some b => acc ∪ Finset.Icc a b
      | _, _ => acc
    | _ => acc
  else
    match pyInt? tok with
    | some k => insert k acc
    | none => acc

/-- Model of `_parse_entrada` of `selecao.py`: accumulate indices over the
tokens, then keep only `1 <= i <= total`. -/
def parseEntrada (entrada : String) (total : ℤ) : Finset ℤ :=
  ((tokensEntrada entrada).foldl passoToken ∅).filter
    (fun i => 1 ≤ i ∧ i ≤ total)

/-- Whether one token makes `_parse_entrada` include index `i` (before the
final interval restriction). -/
def tokenContribui (tok : String) (i : ℤ) : Bool :=
  if tok.data.contains '-' then
    match pySplitSep '-' tok with
    | [p1, p2] =>
      match pyInt? p1, pyInt? p2 with
      | some a, some b => decide (a ≤ i) && decide (i ≤ b)
      | _, _ => false
    | _ => false
  else decide (pyInt? tok = some i)

/-! Section: helper lemmas -/

/-- The loop of `_classificar_eixo` collects, in configuration order, the
names of the matching axes. -/
theorem classificarEixoLoop_eq (es : List Eixo) (txt : String) :
    classificarEixoLoop es txt =
      (es.filter (fun e => eixoCombina e txt)).map Eixo.nome := by
  induction es with
  | nil => rfl
  | cons e t ih =>
    by_cases h : eixoCombina e txt <;> simp [classificarEixoLoop, h, ih]

/-- The five configured axis names are pairwise distinct. -/
theorem eixos_nomes_nodup : (EIXOS_TEMATICOS.map Eixo.nome).Nodup := by decide

/-- No configured axis carries the fallback name. -/
theorem eixos_nome_ne_outros : ∀ e ∈ EIXOS_TEMATICOS, e.nome ≠ "Outros" := by
  decide

/-- Attaching a computed column, filtering on it, and projecting back is a
plain filter on the computed value. -/
theorem coluna_filter_eq {α β : Type} (f : α → β) (p : β → Bool) (l : List α) :
    ((l.map (fun a => (a, f a))).filter (fun x => p x.2)).map Prod.fst
      = l.filter (fun a => p (f a)) := by
  induction l with
  | nil => rfl
  | cons a t ih => by_cases h : p (f a) <;> simp [h, ih]

/-- Stage 3 as a per-row filter on `instalacoes_num`. -/
theorem etapa3_eq_filter (cols : Colunas) (l : List App) :
    etapa3 cols l
      = l.filter (fun r => decide (MIN_INSTALACOES ≤ instalacoesNum cols r)) :=
  coluna_filter_eq (instalacoesNum cols) (fun q => decide (MIN_INSTALACOES ≤ q)) l

/-- Stage 4 as a per-row filter on the resolved timestamp. -/
theorem etapa4_eq_filter (cols : Colunas) (corte : ℤ) (l : List App) :
    etapa4 cols corte l
      = l.filter (fun r =>
          match updatedDt cols r with
          | some t => decide (corte ≤ t)
          | none => false) :=
  coluna_filter_eq (updatedDt cols)
    (fun o => match o with | some t => decide (corte ≤ t) | none => false) l

/-- Four consecutive filters collapse to the conjunction of their
predicates. -/
theorem filter_quatro {α : Type} (p2 p3 p4 p5 : α → Bool) (l : List α) :
    (((l.filter p2).filter p3).filter p4).filter p5
      = l.filter (fun a => p2 a && p3 a && p4 a && p5 a) := by
  rw [List.filter_filter, List.filter_filter, List.filter_filter]
  exact List.filter_congr (fun x _ => by
    cases p2 x <;> cases p3 x <;> cases p4 x <;> cases p5 x <;> rfl)

/-- Deduplication never lengthens the collection. -/
theorem dropDuplicatas_length_le (l : List App) (vistos : List String) :
    (dropDuplicatas l vistos).length ≤ l.length := by
  induction l generalizing vistos with
  | nil => simp [dropDuplicatas]
  | cons r t ih =>
    by_cases h : r.appId ∈ vistos
    · simp only [dropDuplicatas, if_pos h]
      exact Nat.le_succ_of_le (ih vistos)
    · simp only [dropDuplicatas, if_neg h, List.length_cons]
      exact Nat.succ_le_succ (ih (r.appId :: vistos))

/-- After deduplication the identifiers are pairwise distinct and avoid the
already-seen set. -/
theorem dropDuplicatas_chaves (l : List App) (vistos : List String) :
    ((dropDuplicatas l vistos).map App.appId).Nodup ∧
    ∀ k ∈ (dropDuplicatas l vistos).map App.appId, k ∉ vistos := by
  induction l generalizing vistos with
  | nil => simp [dropDuplicatas]
  | cons r t ih =>
    by_cases h : r.appId ∈ vistos
    · simpa only [dropDuplicatas, if_pos h] using ih vistos
    · simp only [dropDuplicatas, if_neg h, List.map_cons]
      obtain ⟨hn, hfora⟩ := ih (r.appId :: vistos)
      refine ⟨List.nodup_cons.mpr ⟨fun hmem => ?_, hn⟩, ?_⟩
      · exact (hfora r.appId hmem) (List.mem_cons_self _ _)
      · intro k hk
        rcases List.mem_cons.mp hk with hk | hk
        · exact hk ▸ h
        · exact fun hv => (hfora k hk) (List.mem_cons_of_mem _ hv)

/-- Deduplication does nothing on a collection whose identifiers are already
pairwise distinct and disjoint from the seen set. -/
theorem dropDuplicatas_eq_self (l : List App) (vistos : List String)
    (hn : (l.map App.appId).Nodup)
    (hfora : ∀ k ∈ l.map App.appId, k ∉ vistos) :
    dropDuplicatas l vistos = l := by
  induction l generalizing vistos with
  | nil => rfl
  | cons r t ih =>
    simp only [List.map_cons, List.nodup_cons] at hn
    have hr : r.appId ∉ vistos := hfora r.appId (by simp)
    simp only [dropDuplicatas, if_neg hr]
    refine congrArg (r :: ·) (ih (r.appId :: vistos) hn.2 ?_)
    intro k hk
    rw [List.mem_cons]
    rintro (hk2 | hk2)
    · exact hn.1 (hk2 ▸ hk)
    · exact hfora k (List.mem_cons_of_mem _ hk) hk2

/-- Membership after one parser step. -/
theorem passoToken_mem (acc : Finset ℤ) (tok : String) (i : ℤ) :
    i ∈ passoToken acc tok ↔ i ∈ acc ∨ tokenContribui tok i = true := by
  unfold passoToken tokenContribui
  by_cases hc : tok.data.contains '-'
  · simp only [if_pos hc]
    cases hs : pySplitSep '-' tok with
    | nil => simp
    | cons p1 resto =>
      cases resto with
      | nil => simp
      | cons p2 resto2 =>
        cases resto2 with
        | nil =>
          cases h1 : pyInt? p1 <;> cases h2 : pyInt? p2 <;>
            simp [h1, h2, Finset.mem_union, Finset.mem_Icc]
        | cons p3 resto3 => simp
  · simp only [if_neg hc]
    cases h : pyInt? tok with
    | none => simp
    | some k =>
      simp only [Finset.mem_insert, Option.some.injEq, decide_eq_true_eq]
      constructor
      · rintro (h | h)
        · exact Or.inr h.symm
        · exact Or.inl h
      · rintro (h | h)
        · exact Or.inr h
        · exact Or.inl h.symm

/-- Membership after folding the parser step over a token list. -/
theorem foldl_passoToken_mem (toks : List String) (acc : Finset ℤ) (i : ℤ) :
    i ∈ toks.foldl passoToken acc ↔
      i ∈ acc ∨ ∃ tok ∈ toks, tokenContribui tok i = true := by
  induction toks generalizing acc with
  | nil => simp
  | cons t ts ih =>
    rw [List.foldl_cons, ih, passoToken_mem]
    simp only [List.mem_cons]
    constructor
    · rintro ((h | h) | ⟨tok, htok, h⟩)
      · exact Or.inl h
      · exact Or.inr ⟨t, Or.inl rfl, h⟩
      · exact Or.inr ⟨tok, Or.inr htok, h⟩
    · rintro (h | ⟨tok, htok | htok, h⟩)
      · exact Or.inl (Or.inl h)
      · exact Or.inl (Or.inr (htok ▸ h))
      · exact Or.inr ⟨tok, htok, h⟩

/-! Section: claims -/

/-- C1: for every normalized text and base polarity in `[-1, 1]`, the
sentiment scorer returns the adjusted polarity obtained by counting the
unique-token intersections with the positive and negative lexicons, adding
`(p - n) * 0.15` to the base, and clamping into `[-1, 1]`; the label is
"Positivo" exactly when the adjusted polarity exceeds `0.05`, "Negativo"
exactly when it is below `-0.05`, and "Neutro" otherwise (so the boundary
values `0.05` and `-0.05` are "Neutro"). -/
theorem sentimento_hibrido_correto (txt : String) (basePol : ℚ)
    (_h1 : -1 ≤ basePol) (_h2 : basePol ≤ 1) :
    (sentimento basePol txt).2 = ajusteSpec basePol txt ∧
    ((sentimento basePol txt).1 = "Positivo" ↔ 5/100 < ajusteSpec basePol txt) ∧
    ((sentimento basePol txt).1 = "Negativo" ↔ ajusteSpec basePol txt < -(5/100)) ∧
    ((sentimento basePol txt).1 = "Neutro" ↔
      -(5/100) ≤ ajusteSpec basePol txt ∧ ajusteSpec basePol txt ≤ 5/100) := by
  have hd : sentimento basePol txt =
      if ajusteSpec basePol txt > 5/100 then ("Positivo", ajusteSpec basePol txt)
      else if ajusteSpec basePol txt < -(5/100) then ("Negativo", ajusteSpec basePol txt)
      else ("Neutro", ajusteSpec basePol txt) := rfl
  rw [hd]
  set A := ajusteSpec basePol txt with hA
  split_ifs with hpos hneg
  · refine ⟨rfl, by simp [hpos], by simp; linarith, by simp; intro h; linarith⟩
  · refine ⟨rfl, by simpa using hpos, by simp [hneg], by simp; intro h; linarith⟩
  · push_neg at hpos hneg
    exact ⟨rfl, by simp; exact hpos, by simp; exact hneg, by simp; exact ⟨hneg, hpos⟩⟩

/-- Witness for C1 at the concrete text "bom" with base polarity 0. -/
theorem sentimento_hibrido_correto_witness :
    ((-1 : ℚ) ≤ 0 ∧ (0 : ℚ) ≤ 1) ∧
    ((sentimento 0 "bom").2 = ajusteSpec 0 "bom" ∧
      ((sentimento 0 "bom").1 = "Positivo" ↔ 5/100 < ajusteSpec 0 "bom") ∧
      ((sentimento 0 "bom").1 = "Negativo" ↔ ajusteSpec 0 "bom" < -(5/100)) ∧
      ((sentimento 0 "bom").1 = "Neutro" ↔
        -(5/100) ≤ ajusteSpec 0 "bom" ∧ ajusteSpec 0 "bom" ≤ 5/100)) :=
  ⟨⟨by norm_num, by norm_num⟩,
   sentimento_hibrido_correto "bom" 0 (by norm_num) (by norm_num)⟩

/-- C2: for every input text the thematic classifier returns a non-empty
duplicate-free list of labels; when no axis matches it is exactly
`["Outros"]`, when some axis matches it is the matching axis names in the
configuration's declared order, and an axis name appears in the result
exactly when one of that axis's keywords is a substring of the text. -/
theorem classificarEixo_correto (txt : String) :
    classificarEixo txt ≠ [] ∧
    (classificarEixo txt).Nodup ∧
    (EIXOS_TEMATICOS.filter (fun e => eixoCombina e txt) = [] →
      classificarEixo txt = ["Outros"]) ∧
    (EIXOS_TEMATICOS.filter (fun e => eixoCombina e txt) ≠ [] →
      classificarEixo txt =
        (EIXOS_TEMATICOS.filter (fun e => eixoCombina e txt)).map Eixo.nome) ∧
    (∀ e ∈ EIXOS_TEMATICOS,
      (e.nome ∈ classificarEixo txt ↔ eixoCombina e txt = true)) := by
  have hl : classificarEixo txt =
      if (EIXOS_TEMATICOS.filter (fun e => eixoCombina e txt)).map Eixo.nome = []
      then ["Outros"]
      else (EIXOS_TEMATICOS.filter (fun e => eixoCombina e txt)).map Eixo.nome := by
    rw [classificarEixo, classificarEixoLoop_eq]
    simp [List.isEmpty_iff]
  by_cases hE : EIXOS_TEMATICOS.filter (fun e => eixoCombina e txt) = []
  · rw [hl, if_pos (by simp [hE])]
    refine ⟨by simp, by simp, fun _ => rfl, fun h => absurd hE h, ?_⟩
    intro e he
    have hno : e.nome ≠ "Outros" := eixos_nome_ne_outros e he
    have hnc : ¬(eixoCombina e txt = true) := by
      intro hc
      have := List.filter_eq_nil_iff.mp hE e he
      simp [hc] at this
    simp [hno, hnc]
  · rw [hl, if_neg (by simpa using hE)]
    have hsub : ((EIXOS_TEMATICOS.filter (fun e => eixoCombina e txt)).map
        Eixo.nome).Nodup :=
      ((List.filter_sublist _).map Eixo.nome).nodup eixos_nomes_nodup
    refine ⟨by simpa using hE, hsub, fun h => absurd h hE, fun _ => rfl, ?_⟩
    intro e he
    constructor
    · intro hm
      obtain ⟨e2, he2, hnome⟩ := List.mem_map.mp hm
      have he2f := List.mem_filter.mp he2
      have he2e : e2 = e :=
        List.inj_on_of_nodup_map eixos_nomes_nodup he2f.1 he hnome
      rw [← he2e]
      exact he2f.2
    · intro hc
      exact List.mem_map_of_mem Eixo.nome (List.mem_filter.mpr ⟨he, hc⟩)

/-- Witness for C2: the text "muito bom recomendo" matches no axis, so the
classifier yields exactly the fallback list. -/
theorem classificarEixo_correto_witness :
    classificarEixo "muito bom recomendo" = ["Outros"] :=
  (classificarEixo_correto "muito bom recomendo").2.2.1 (by decide)

/-- C3: the developer classifier is a pure function of the (optional)
developer name: absent or non-string input gives "Comercial"; otherwise the
lowercased name is tested first against the governmental keywords
("Governamental"), then the institutional keywords ("Institucional"), else
"Comercial"; in particular a name matching both keyword sets is
"Governamental". -/
theorem classificarDev_correto :
    classificarDev none = "Comercial" ∧
    (∀ s : String, classificarDev (some s) =
      (if KEYWORDS_GOVERNO.any (fun k => temSub k (pyLower s)) then "Governamental"
       else if KEYWORDS_INST.any (fun k => temSub k (pyLower s)) then "Institucional"
       else "Comercial")) ∧
    (∀ s : String, KEYWORDS_GOVERNO.any (fun k => temSub k (pyLower s)) = true →
      classificarDev (some s) = "Governamental") ∧
    (∀ s : String, KEYWORDS_GOVERNO.any (fun k => temSub k (pyLower s)) = false →
      KEYWORDS_INST.any (fun k => temSub k (pyLower s)) = true →
      classificarDev (some s) = "Institucional") ∧
    (∀ s : String, KEYWORDS_GOVERNO.any (fun k => temSub k (pyLower s)) = true →
      KEYWORDS_INST.any (fun k => temSub k (pyLower s)) = true →
      classificarDev (some s) = "Governamental") ∧
    (∀ s : String, KEYWORDS_GOVERNO.any (fun k => temSub k (pyLower s)) = false →
      KEYWORDS_INST.any (fun k => temSub k (pyLower s)) = false →
      classificarDev (some s) = "Comercial") := by
  refine ⟨rfl, fun s => rfl, ?_, ?_, ?_, ?_⟩
  · intro s h; simp [classificarDev, h]
  · intro s h1 h2; simp [classificarDev, h1, h2]
  · intro s h1 _; simp [classificarDev, h1]
  · intro s h1 h2; simp [classificarDev, h1, h2]

/-- Witness for C3 at a name containing both a governmental and an
institutional keyword. -/
theorem classificarDev_correto_witness :
    classificarDev (some "Universidade X Ministério Y") = "Governamental" :=
  classificarDev_correto.2.2.2.2.1 "Universidade X Ministério Y"
    (by decide) (by decide)

/-- C4 counterexample: a row whose real-installs value is present but `0`
while its declared minimum is `5000`.  The claimed per-record fallback would
give effective installs `5000` (above the threshold, so the row would
survive), but the code computes `0` from the `realInstalls` column alone and
drops the row. -/
theorem instalacoes_fallback_refutado :
    instalacoesNum ⟨true, true, true⟩ appExemploC4
        ≠ instalacoesEfetivasSpec appExemploC4 ∧
    MIN_INSTALACOES ≤ instalacoesEfetivasSpec appExemploC4 ∧
    etapa3 ⟨true, true, true⟩ [appExemploC4] = [] := by
  refine ⟨?_, ?_, ?_⟩
  · norm_num [instalacoesNum, instalacoesEfetivasSpec, appExemploC4]
  · norm_num [instalacoesEfetivasSpec, appExemploC4, MIN_INSTALACOES]
  · rfl

/-- C4 as amended: the effective install count of stage 3 is resolved per
column, not per record — whenever at least one install column exists, it is
the row's `realInstalls` value when that column exists (missing or unparsable
cells becoming 0, with no per-row fallback), else the row's `minInstalls`
value (missing cells becoming 0) — and exactly the rows whose effective
install count reaches the threshold survive; when neither install column
exists the stage raises `AttributeError` instead of computing any effective
count. -/
theorem instalacoes_por_coluna (cols : Colunas) (l : List App)
    (hcol : cols.colRealInstalls = true ∨ cols.colMinInstalls = true) :
    etapa3Completa cols l = Except.ok (etapa3 cols l) ∧
    etapa3 cols l
        = l.filter (fun r => decide (MIN_INSTALACOES ≤ instalacoesNum cols r)) ∧
    (∀ r : App, r ∈ etapa3 cols l ↔
        r ∈ l ∧ MIN_INSTALACOES ≤ instalacoesNum cols r) ∧
    (∀ r : App, instalacoesNum cols r =
      if cols.colRealInstalls then r.realInstalls.getD 0
      else r.minInstalls.getD 0) ∧
    (∀ colsSem : Colunas, colsSem.colRealInstalls = false →
      colsSem.colMinInstalls = false →
      etapa3Completa colsSem l = Except.error "AttributeError") := by
  have hok : etapa3Completa cols l = Except.ok (etapa3 cols l) := by
    rcases hcol with h | h <;> simp [etapa3Completa, h]
  refine ⟨hok, etapa3_eq_filter cols l, ?_, ?_, ?_⟩
  · intro r
    rw [etapa3_eq_filter cols l, List.mem_filter]
    simp
  · intro r
    rcases hcol with h | h
    · simp [instalacoesNum, h]
    · by_cases hr : cols.colRealInstalls <;> simp [instalacoesNum, hr, h]
  · intro colsSem h1 h2
    simp [etapa3Completa, h1, h2]

/-- Witness for C4 (amended): with no `realInstalls` column the `minInstalls`
column is used, and the example row survives stage 3. -/
theorem instalacoes_por_coluna_witness :
    appExemploC4 ∈ etapa3 ⟨false, true, true⟩ [appExemploC4] :=
  ((instalacoes_por_coluna ⟨false, true, true⟩ [appExemploC4]
      (Or.inr rfl)).2.2.1 appExemploC4).mpr
    ⟨by simp, by norm_num [instalacoesNum, appExemploC4, MIN_INSTALACOES]⟩

/-- C5 counterexample: with a 5-character text and an exactly-10-character
text, the classification stage output is empty — the short record is not
retained with an "Outros" classification (it is dropped), and the record at
the claimed threshold is not classified either, because the code keeps only
lengths strictly greater than 10. -/
theorem comprimento_minimo_refutado :
    reviewCurto.texto.length < 10 ∧
    reviewLimite.texto.length = 10 ∧
    analiseQualitativa (fun _ => 0) [reviewCurto, reviewLimite] = [] := by
  refine ⟨by decide, by decide, rfl⟩

/-- C5 as amended: a record whose normalized text has length at most 10 is
dropped from the classification stage entirely — excluded from the statistics
and from the surviving annotated dataset — while every record with length
greater than 10 is annotated with its sentiment label, polarity and thematic
axes, for any black-box base polarity. -/
theorem comprimento_minimo_correto (basePol : String → ℚ) (l : List ReviewNorm) :
    (∀ e ∈ analiseQualitativa basePol l,
        10 < e.review.texto.length ∧ e.review ∈ l) ∧
    (∀ r ∈ l, r.texto.length ≤ 10 →
        ∀ e ∈ analiseQualitativa basePol l, e.review ≠ r) ∧
    (∀ r ∈ l, 10 < r.texto.length →
        ({ review := r,
           rotulo := (sentimento (basePol r.texto) r.texto).1,
           polaridade := (sentimento (basePol r.texto) r.texto).2,
           eixos := classificarEixo r.texto } : ReviewAnotado)
          ∈ analiseQualitativa basePol l) := by
  have hmem : ∀ e ∈ analiseQualitativa basePol l,
      10 < e.review.texto.length ∧ e.review ∈ l := by
    intro e he
    obtain ⟨r, hr, hre⟩ := List.mem_map.mp he
    have hf := List.mem_filter.mp hr
    have her : e.review = r := by rw [← hre]
    rw [her]
    exact ⟨by simpa using hf.2, hf.1⟩
  refine ⟨hmem, ?_, ?_⟩
  · intro r _ hcurto e he heq
    have := (hmem e he).1
    rw [heq] at this
    omega
  · intro r hr hlongo
    exact List.mem_map_of_mem _
      (List.mem_filter.mpr ⟨hr, by simpa using hlongo⟩)

/-- Witness for C5 (amended): an 11-character review is annotated and kept. -/
theorem comprimento_minimo_correto_witness :
    ({ review := reviewLongo,
       rotulo := (sentimento 0 reviewLongo.texto).1,
       polaridade := (sentimento 0 reviewLongo.texto).2,
       eixos := classificarEixo reviewLongo.texto } : ReviewAnotado)
      ∈ analiseQualitativa (fun _ => 0) [reviewLongo] :=
  (comprimento_minimo_correto (fun _ => 0) [reviewLongo]).2.2 reviewLongo
    (by simp) (by decide)

/-- C6: for every input collection and configuration, every recorded audit
tuple of the filter pipeline satisfies count-after less-or-equal
count-before, and the final surviving set equals the deduplicated input
filtered once by the conjunction of the four per-row stage predicates
(category, installs, freshness, relevance) — the cumulative stage
applications compose to that conjunction. -/
theorem pipeline_monotono_conjuncao (cols : Colunas) (corte : ℤ)
    (l : List App) :
    (∀ e ∈ (pipelineFiltros cols corte l).2, e.2.2 ≤ e.2.1) ∧
    (pipelineFiltros cols corte l).1 =
      (etapa1 l).filter (fun r =>
        (match r.genreId with
         | some g => CATEGORIAS_ALVO.contains g
         | none => false) &&
        decide (MIN_INSTALACOES ≤ instalacoesNum cols r) &&
        (match updatedDt cols r with
         | some t => decide (corte ≤ t)
         | none => false) &&
        (contem (some (textoCombinado r)) KEYWORDS_INCLUSAO &&
          !(contem r.title KEYWORDS_EXCLUSAO_TITULO))) := by
  constructor
  · intro e he
    simp only [pipelineFiltros, List.mem_cons, List.not_mem_nil, or_false] at he
    rcases he with h | h | h | h | h <;> subst h
    · exact dropDuplicatas_length_le l []
    · exact List.length_filter_le _ _
    · rw [etapa3_eq_filter]; exact List.length_filter_le _ _
    · rw [etapa4_eq_filter]; exact List.length_filter_le _ _
    · exact List.length_filter_le _ _
  · show etapa5 (etapa4 cols corte (etapa3 cols (etapa2 (etapa1 l)))) = _
    rw [etapa3_eq_filter, etapa4_eq_filter]
    simp only [etapa2, etapa5]
    exact filter_quatro
      (fun r => match r.genreId with
                | some g => CATEGORIAS_ALVO.contains g
                | none => false)
      (fun r => decide (MIN_INSTALACOES ≤ instalacoesNum cols r))
      (fun r => match updatedDt cols r with
                | some t => decide (corte ≤ t)
                | none => false)
      (fun r => contem (some (textoCombinado r)) KEYWORDS_INCLUSAO &&
                !(contem r.title KEYWORDS_EXCLUSAO_TITULO))
      (etapa1 l)

/-- Witness for C6 at the empty collection: the first audit tuple is
non-increasing. -/
theorem pipeline_monotono_conjuncao_witness :
    ((("Remoção de duplicatas", 0, 0) : String × Nat × Nat)).2.2
      ≤ (("Remoção de duplicatas", 0, 0) : String × Nat × Nat).2.1 :=
  (pipeline_monotono_conjuncao ⟨true, true, true⟩ 0 []).1 _ (by decide)

/-- C7: in stage 4 the update timestamp is resolved from the primary numeric
field and, when that is unparsable, from the secondary textual date field
(when that column exists); exactly the records whose resolved timestamp
reaches the cutoff survive, and a record with no resolvable timestamp is
dropped rather than passing vacuously. -/
theorem atualizacao_resolucao (cols : Colunas) (corte : ℤ) (l : List App) :
    etapa4 cols corte l
        = l.filter (fun r =>
            match updatedDt cols r with
            | some t => decide (corte ≤ t)
            | none => false) ∧
    (∀ r : App, r ∈ etapa4 cols corte l ↔
        r ∈ l ∧ ∃ t, updatedDt cols r = some t ∧ corte ≤ t) ∧
    (∀ r ∈ l, updatedDt cols r = none → r ∉ etapa4 cols corte l) ∧
    (∀ r : App, updatedDt cols r =
      match r.updated with
      | some t => some t
      | none => if cols.colLastUpdatedOn then r.lastUpdatedOn else none) := by
  have hmem : ∀ r : App, r ∈ etapa4 cols corte l ↔
      r ∈ l ∧ ∃ t, updatedDt cols r = some t ∧ corte ≤ t := by
    intro r
    rw [etapa4_eq_filter cols corte l, List.mem_filter]
    cases h : updatedDt cols r <;> simp [h]
  refine ⟨etapa4_eq_filter cols corte l, hmem, ?_, fun r => rfl⟩
  intro r _ hnone hm
  obtain ⟨_, t, ht, _⟩ := (hmem r).mp hm
  rw [hnone] at ht
  exact Option.noConfusion ht

/-- Witness for C7: a record whose primary timestamp parses and reaches the
cutoff survives stage 4. -/
theorem atualizacao_resolucao_witness :
    appExemploC7 ∈ etapa4 ⟨true, true, true⟩ 0 [appExemploC7] :=
  ((atualizacao_resolucao ⟨true, true, true⟩ 0 [appExemploC7]).2.1
      appExemploC7).mpr
    ⟨by simp, 100, rfl, by norm_num⟩

/-- C8: with no raw apps collection to ingest, loading raises the
"Nenhum arquivo de apps" error, the whole pipeline propagates it, and no
output value is produced for the stage. -/
theorem sem_dados_falha (cols : Colunas) (corte : ℤ)
    (csvsReviews : List (List Review)) :
    carregarBrutos [] csvsReviews = Except.error "Nenhum arquivo de apps" ∧
    executarLimpeza cols corte [] csvsReviews
      = Except.error "Nenhum arquivo de apps" ∧
    ∀ saida, executarLimpeza cols corte [] csvsReviews ≠ Except.ok saida := by
  refine ⟨rfl, rfl, ?_⟩
  intro saida h
  exact Except.noConfusion h

/-- Witness for C8 at a concrete configuration. -/
theorem sem_dados_falha_witness :
    executarLimpeza ⟨true, true, true⟩ 0 [] []
      = Except.error "Nenhum arquivo de apps" :=
  (sem_dados_falha ⟨true, true, true⟩ 0 []).2.1

/-- C9: the deduplication stage (drop duplicates by identifier, keep the
first occurrence) is idempotent — applying it to its own output returns the
output unchanged, and in particular with the same row count. -/
theorem dedup_idempotente (l : List App) :
    etapa1 (etapa1 l) = etapa1 l ∧
    (etapa1 (etapa1 l)).length = (etapa1 l).length := by
  have h := dropDuplicatas_chaves l []
  have heq : dropDuplicatas (dropDuplicatas l []) [] = dropDuplicatas l [] :=
    dropDuplicatas_eq_self _ [] h.1 (fun k _ => List.not_mem_nil k)
  exact ⟨heq, congrArg List.length heq⟩

/-- C10: for every input string and total, the interactive selection parser
returns a set of integers all within `[1, total]`; an index belongs to the
result exactly when it lies in that interval and some token contributes it —
a numeric token contributing its value and a well-formed range `a-b`
contributing every integer between `a` and `b` — while non-numeric tokens and
malformed ranges contribute nothing and raise no error. -/
theorem parseEntrada_correto (entrada : String) (total : ℤ) :
    (∀ i ∈ parseEntrada entrada total, 1 ≤ i ∧ i ≤ total) ∧
    (∀ i : ℤ, i ∈ parseEntrada entrada total ↔
        1 ≤ i ∧ i ≤ total ∧
          ∃ tok ∈ tokensEntrada entrada, tokenContribui tok i = true) := by
  have hiff : ∀ i : ℤ, i ∈ parseEntrada entrada total ↔
      1 ≤ i ∧ i ≤ total ∧
        ∃ tok ∈ tokensEntrada entrada, tokenContribui tok i = true := by
    intro i
    unfold parseEntrada
    rw [Finset.mem_filter, foldl_passoToken_mem]
    simp only [Finset.not_mem_empty, false_or]
    tauto
  exact ⟨fun i hi => ⟨((hiff i).mp hi).1, ((hiff i).mp hi).2.1⟩, hiff⟩

/-- Witness for C10: the range token "1-3" contributes index 3 to the input
"1-3, 7, x, 9-" with total 5, while the malformed tokens are ignored. -/
theorem parseEntrada_correto_witness :
    (3 : ℤ) ∈ parseEntrada "1-3, 7, x, 9-" 5 :=
  ((parseEntrada_correto "1-3, 7, x, 9-" 5).2 3).mpr
    ⟨by norm_num, by norm_num, "1-3", by decide, by decide⟩

end Infodemiologia
